import Mathlib

/-!
Shallow embedding of the core of the CLI-Internet-Service-Manager repository
(`src/lib/models/*.py`, `src/lib/helpers/*.py`): the data model (Customer,
Plan, Subscription), the validation rules, and the subscription-lifecycle /
query helpers, together with proofs settling the specification claims.

Dates are modelled as (year, month, day) triples of naturals; the
`dateutil.relativedelta` month/day additions used by the helpers are embedded
as `addMonths` / `addDays` below, with the same clamp-to-end-of-month
semantics `relativedelta` has for positive month offsets.
-/

/-- A calendar date, as stored in the `Date` columns of the schema
(`start_date`, `end_date`): year, month (1–12), day (1–31). -/
structure Date where
  year : Nat
  month : Nat
  day : Nat
deriving DecidableEq

/-- Gregorian leap-year rule, as implemented by Python's `calendar`/`dateutil`. -/
def isLeapYear (y : Nat) : Bool :=
  y % 4 == 0 && (y % 100 != 0 || y % 400 == 0)

/-- Number of days in a month of a given year (Gregorian calendar). -/
def daysInMonth (y m : Nat) : Nat :=
  if m == 2 then (if isLeapYear y then 29 else 28)
  else if m == 4 || m == 6 || m == 9 || m == 11 then 30
  else 31

/-- The absolute month index of a date: `year * 12 + (month - 1)`. Two dates
are "exactly n calendar months apart" when their indices differ by n. -/
def monthIndex (d : Date) : Nat :=
  d.year * 12 + (d.month - 1)

/-- `d + relativedelta(months=n)` for `n ≥ 0`: the month index advances by
exactly `n`, and the day is clamped to the length of the target month
(`2024-01-31 + 1 month = 2024-02-29`). Embeds the `relativedelta` calls at
`subscription_helpers.py` lines 60, 151 and 168. -/
def addMonths (d : Date) (n : Nat) : Date where
  year := (d.year * 12 + (d.month - 1) + n) / 12
  month := (d.year * 12 + (d.month - 1) + n) % 12 + 1
  day := min d.day (daysInMonth ((d.year * 12 + (d.month - 1) + n) / 12)
    ((d.year * 12 + (d.month - 1) + n) % 12 + 1))

/-- The day after `d` (Gregorian calendar). -/
def nextDay (d : Date) : Date :=
  if d.day < daysInMonth d.year d.month then
    { d with day := d.day + 1 }
  else if d.month < 12 then
    { year := d.year, month := d.month + 1, day := 1 }
  else
    { year := d.year + 1, month := 1, day := 1 }

/-- `d + relativedelta(days=n)`: embeds the `deadline = today +
relativedelta(days=7)` computation at `subscription_helpers.py` line 201. -/
def addDays (d : Date) : Nat → Date
  | 0 => d
  | n + 1 => addDays (nextDay d) n

/-- Strict chronological order on dates (lexicographic on year, month, day),
the order the `Date` columns are compared by. -/
def dateLt (a b : Date) : Bool :=
  if a.year ≠ b.year then decide (a.year < b.year)
  else if a.month ≠ b.month then decide (a.month < b.month)
  else decide (a.day < b.day)

/-- Non-strict chronological order on dates. -/
def dateLe (a b : Date) : Bool :=
  if a.year ≠ b.year then decide (a.year < b.year)
  else if a.month ≠ b.month then decide (a.month < b.month)
  else decide (a.day ≤ b.day)

/-- A row of the `customers` table (`src/lib/models/customer.py`): the
`router_id` column is declared `Integer`, so the stored router identifier is
a number, not a string. `phone` is nullable; `email` is stored lower-cased. -/
structure Customer where
  id : Nat
  router_id : Nat
  name : String
  email : String
  phone : Option String
  address : String
deriving DecidableEq

/-- A row of the `plans` table (`src/lib/models/plan.py`). -/
structure Plan where
  id : Nat
  name : String
  description : Option String
  price : ℚ
  speed : String
deriving DecidableEq

/-- A row of the `subscriptions` table (`src/lib/models/subscription.py`).
`last_reminder_sent` is assigned `date.today()` by the expiring sweep, so it
is modelled as an optional date. -/
structure Subscription where
  id : Nat
  customer_id : Nat
  plan_id : Nat
  router_id : Nat
  status : String
  start_date : Date
  end_date : Option Date
  last_reminder_sent : Option Date
deriving DecidableEq

/-- `Subscription.is_active` (`subscription.py` lines 60–65): status is
`'active'` and the end date is absent or not before today. -/
def Subscription.is_active (s : Subscription) (today : Date) : Bool :=
  s.status == "active" &&
    (match s.end_date with
     | none => true
     | some e => dateLe today e)

/-- The core of `create_subscription` (`subscription_helpers.py` lines 59–71):
start date is today, end date is `start + relativedelta(months=duration)`,
status is initialised to `'active'`, the router id is copied from the
customer, and no reminder has been sent. -/
def create_subscription (customer : Customer) (plan : Plan) (today : Date)
    (duration : Nat) : Subscription :=
  { id := 0
    customer_id := customer.id
    plan_id := plan.id
    router_id := customer.router_id
    status := "active"
    start_date := today
    end_date := some (addMonths today duration)
    last_reminder_sent := none }

/-- The "Extend Duration" branch of `update_subscription`
(`subscription_helpers.py` lines 158–171): fails (`none`) if the subscription
has no end date or the month count is below 1; otherwise pushes the end date
forward by `months` calendar months. -/
def extend_subscription (s : Subscription) (months : Nat) : Option Subscription :=
  match s.end_date with
  | none => none
  | some e =>
      if months < 1 then none
      else some { s with end_date := some (addMonths e months) }

/-- The SQL filter of `list_subscriptions` for `status='active'`
(`subscription_helpers.py` lines 87–96): `status == 'active' AND (end_date IS
NULL OR end_date >= today)`. -/
def activeQueryFilter (today : Date) (s : Subscription) : Bool :=
  s.status == "active" &&
    (match s.end_date with
     | none => true
     | some e => dateLe today e)

/-- The SQL filter of `list_subscriptions` for `status='expired'`
(`subscription_helpers.py` lines 97–103): `status == 'active' AND end_date <
today`; a NULL end date compares as unknown in SQL, so such rows are not
selected. -/
def expiredQueryFilter (today : Date) (s : Subscription) : Bool :=
  s.status == "active" &&
    (match s.end_date with
     | none => false
     | some e => dateLt e today)

/-- Insert a subscription into a list sorted by start date. -/
def insertByStart (s : Subscription) : List Subscription → List Subscription
  | [] => [s]
  | t :: ts =>
      if dateLe s.start_date t.start_date then s :: t :: ts
      else t :: insertByStart s ts

/-- `ORDER BY start_date` (insertion sort; a stable sort by start date). -/
def sortByStart : List Subscription → List Subscription
  | [] => []
  | s :: ss => insertByStart s (sortByStart ss)

/-- `list_subscriptions` (`subscription_helpers.py` lines 84–105): filter by
the requested status, then order by start date. Any status string other than
`'active'` or `'expired'` (the code calls it with `'all'`) applies no filter. -/
def list_subscriptions (today : Date) (subs : List Subscription)
    (status : String) : List Subscription :=
  sortByStart
    (if status == "active" then subs.filter (activeQueryFilter today)
     else if status == "expired" then subs.filter (expiredQueryFilter today)
     else subs)

/-- Looks up `db.get(Customer, cid)` / the `sub.customer` relationship in a
list-of-rows model of the `customers` table. -/
def findCustomer (customers : List Customer) (cid : Nat) : Option Customer :=
  customers.find? (fun c => c.id == cid)

/-- The reminder gate of the expiring sweep (`subscription_helpers.py` lines
207–210): `last_reminder_sent IS NULL OR last_reminder_sent < today`. -/
def reminderDue (today : Date) (s : Subscription) : Bool :=
  match s.last_reminder_sent with
  | none => true
  | some r => dateLt r today

/-- The SQL filter of `check_expiring_subscriptions`
(`subscription_helpers.py` lines 203–212): status `'active'`, end date
`BETWEEN today AND today + 7 days` (inclusive on both ends; a NULL end date is
not selected), and the reminder gate. -/
def expiringFilter (today : Date) (s : Subscription) : Bool :=
  s.status == "active" &&
    (match s.end_date with
     | none => false
     | some e => dateLe today e && dateLe e (addDays today 7)) &&
  reminderDue today s

/-- `check_expiring_subscriptions` (`subscription_helpers.py` lines 199–233):
the query joins `Customer`, so only subscriptions whose customer row exists
are selected; for each selected subscription whose customer has a non-empty
email the sweep sets `last_reminder_sent = today`; every other row (and every
other field) is left unchanged. -/
def check_expiring_subscriptions (today : Date) (customers : List Customer)
    (subs : List Subscription) : List Subscription :=
  subs.map fun s =>
    match findCustomer customers s.customer_id with
    | none => s
    | some c =>
        if expiringFilter today s && c.email != "" then
          { s with last_reminder_sent := some today }
        else s

/-- Python `str.lower()` (`Char.toLower` handles the basic-latin range the
repository's data uses). -/
def pyLower (s : String) : String := ⟨s.data.map Char.toLower⟩

/-- Python `str.strip()`: drop whitespace from both ends. -/
def pyStrip (s : String) : String :=
  ⟨((s.data.dropWhile Char.isWhitespace).reverse.dropWhile Char.isWhitespace).reverse⟩

/-- Python `str.isdigit()` for ASCII data: non-empty and all digits. -/
def pyIsDigitStr (s : String) : Bool :=
  !s.data.isEmpty && s.data.all Char.isDigit

/-- The numeric value of a digit character (`'0'` ↦ 0, …, `'9'` ↦ 9). -/
def charVal (c : Char) : Nat := c.toNat - 48

/-- Python `int()` on an all-digit string (the only shape the helpers apply
it to, after `isdigit()` checks): base-10 left fold. -/
def strToNat (s : String) : Nat :=
  s.data.foldl (fun a c => 10 * a + charVal c) 0

/-- Python `str()` of a non-negative integer: its decimal rendering, with no
leading zeros. -/
def natToText (n : Nat) : String :=
  if n = 0 then "0" else ⟨(Nat.digits 10 n).reverse.map Nat.digitChar⟩

/-- `re.sub(r'[^\d+]', '', phone)` (`customer.py` line 56): keep only digits
and plus signs. -/
def cleanPhone (phone : String) : List Char :=
  phone.data.filter (fun c => c.isDigit || c == '+')

/-- The leading-zero rewrite of `Customer.validate_phone` (`customer.py`
lines 57–58): a cleaned string that starts with `'0'` and has exactly 10
characters has its leading zero replaced by `'+254'`. -/
def rewriteLeadingZero (l : List Char) : List Char :=
  if l.head? == some '0' && l.length == 10 then
    '+' :: '2' :: '5' :: '4' :: l.tail
  else l

/-- The character class `[0-247-9]` of the Kenyan mobile pattern. -/
def allowedSecondDigit (c : Char) : Bool :=
  ('0' ≤ c && c ≤ '2') || c == '4' || ('7' ≤ c && c ≤ '9')

/-- The regex `^\+2547[0-247-9]\d{7}$` (`customer.py` line 59) on the cleaned
character list: 13 characters in total. -/
def kenyanPhoneOk : List Char → Bool
  | c0 :: c1 :: c2 :: c3 :: c4 :: c5 :: rest =>
      c0 == '+' && c1 == '2' && c2 == '5' && c3 == '4' && c4 == '7' &&
      allowedSecondDigit c5 && rest.length == 7 && rest.all Char.isDigit
  | _ => false

/-- `Customer.validate_phone` (`customer.py` lines 52–61): `none` means the
`InvalidPhoneError` is raised; `some none` is a stored NULL (empty input);
`some (some t)` is the stored normalised number `t`. -/
def validate_phone (phone : String) : Option (Option String) :=
  if phone = "" then some none
  else
    let cleaned := rewriteLeadingZero (cleanPhone phone)
    if kenyanPhoneOk cleaned then some (some ⟨cleaned⟩) else none

/-- The regex `^[^@]+@[^@]+\.[^@]+$` of `Customer.validate_email`
(`customer.py` line 48): a non-empty `'@'`-free local part, one `'@'`, and a
domain that is `'@'`-free and has a dot that is neither its first nor its
last character. -/
def emailRegexOk (l : List Char) : Bool :=
  let loc := l.takeWhile (fun c => c != '@')
  match l.dropWhile (fun c => c != '@') with
  | [] => false
  | _ :: dom =>
      !loc.isEmpty && !dom.contains '@' && ((dom.drop 1).dropLast.contains '.')

/-- `Customer.validate_email` (`customer.py` lines 46–50): `none` means the
`InvalidEmailError` is raised; otherwise the stored value is
`email.lower().strip()`. -/
def validate_email (email : String) : Option String :=
  if emailRegexOk email.data then some (pyStrip (pyLower email)) else none

/-- `validate_customer_data` (`customer_helpers.py` lines 5–13): soft
validation, collecting every error. Note the email check only requires a
non-empty string containing `'@'`. -/
def validate_customer_data (name email router_id : String) : List String :=
  (if name = "" then ["Name is required"] else []) ++
  (if email = "" ∨ email.data.contains '@' = false then ["Valid email is required"] else []) ++
  (if pyIsDigitStr router_id = false ∨ router_id.data.length ≠ 10 then ["Router ID must be 10 digits"] else [])

/-- The core of `create_customer` (`customer_helpers.py` lines 30–44): soft
validation must pass, then the entity-level email and phone validators run on
assignment (either raising aborts the creation), and the router identifier is
stored as `int(router_id)` — an integer, so leading zeros are not preserved. -/
def create_customer (name email phone address router_id : String) : Option Customer :=
  if validate_customer_data name email router_id ≠ [] then none
  else
    match validate_email email, validate_phone phone with
    | some e, some p =>
        some { id := 0, router_id := strToNat router_id, name := name,
               email := e, phone := p, address := address }
    | _, _ => none

/-- The numeric value of an all-digit character list (base-10 left fold). -/
def digitsVal (l : List Char) : Nat :=
  l.foldl (fun a c => 10 * a + charVal c) 0

/-- Python `float()` restricted to plain decimal literals (optional sign,
integer part, optional fractional part) — the shapes the plan helpers feed
it; anything else is a `ValueError` (`none`). The parsed value is returned
exactly, as a scaled integer: `some (m, e)` denotes the number `m / 10 ^ e`
(all the literals in range here are represented exactly by a float). -/
def pyFloat? (s : String) : Option (Int × Nat) :=
  let l := (pyStrip s).data
  let neg := l.head? == some '-'
  let l := if l.head? == some '-' || l.head? == some '+' then l.tail else l
  let ip := l.takeWhile Char.isDigit
  let rest := l.dropWhile Char.isDigit
  let frac : Option (List Char) :=
    match rest with
    | [] => some []
    | c :: r => if c == '.' && r.all Char.isDigit then some r else none
  match frac with
  | none => none
  | some fp =>
      if ip.isEmpty && fp.isEmpty then none
      else
        let m : Int := ((digitsVal ip * 10 ^ fp.length + digitsVal fp : Nat) : Int)
        some (if neg then -m else m, fp.length)

/-- `validate_plan_data` (`plan_helpers.py` lines 4–17): soft validation,
collecting every error. Note the speed check only requires a non-empty
string; the speed format is checked by the entity-level validator. The float
range check `2000 <= price <= 100000` holds for the exact value `m / 10 ^ e`
iff the scaled integer inequalities below hold. -/
def validate_plan_data (name speed price : String) : List String :=
  (if name = "" then ["Plan name is required"] else []) ++
  (if speed = "" then ["Speed description is required"] else []) ++
  (match pyFloat? price with
   | none => ["Invalid price format"]
   | some me =>
       if ¬((2000 : Int) * ((10 ^ me.2 : Nat) : Int) ≤ me.1 ∧
            me.1 ≤ (100000 : Int) * ((10 ^ me.2 : Nat) : Int)) then
         ["Price must be between KES 2000-100000"]
       else [])

/-- The regex `^\d+\s?(Mbps|Gbps)$` with `re.IGNORECASE` (`plan.py` line 44):
one or more digits, at most one whitespace, then the unit. -/
def speedRegexOk (l : List Char) : Bool :=
  let ds := l.takeWhile Char.isDigit
  let rest := l.dropWhile Char.isDigit
  let unit :=
    match rest with
    | c :: r => if c.isWhitespace then r else rest
    | [] => []
  !ds.isEmpty &&
    (unit.map Char.toLower == ['m', 'b', 'p', 's'] ||
     unit.map Char.toLower == ['g', 'b', 'p', 's'])

/-- `Plan.validate_speed` (`plan.py` lines 42–46): `none` means the
`InvalidSpeedError` is raised; otherwise the stored value is `speed.strip()`. -/
def validate_speed (speed : String) : Option String :=
  if speedRegexOk speed.data then some (pyStrip speed) else none

/-- The rows the helpers touch when deleting a plan: the `plans` and
`subscriptions` tables. -/
structure Store where
  plans : List Plan
  subs : List Subscription
deriving DecidableEq

/-- What `delete_plan` does with the store. -/
inductive DeletePlanOutcome where
  | invalidId
  | rejectedHasSubs
  | cancelled
  | deleted
deriving DecidableEq

/-- The rows of the `plan.subscriptions` relationship (`plan.py` lines
33–37): the subscriptions whose `plan_id` is this plan's id. -/
def planSubscriptions (store : Store) (p : Plan) : List Subscription :=
  store.subs.filter (fun s => s.plan_id == p.id)

/-- The truth value Python gives `plan.subscriptions` in `if
plan.subscriptions:` (`plan_helpers.py` line 115). The relationship is
declared `lazy="dynamic"` (`plan.py` line 36), so the attribute evaluates to
a SQLAlchemy `AppenderQuery` — a `Query` object, which defines neither
`__bool__` nor `__len__` — and truth-testing any such object yields `True`
regardless of how many rows the query would return. -/
def dynamicRelationshipTruthy (_rows : List Subscription) : Bool := true

/-- `delete_plan` (`plan_helpers.py` lines 105–130): parse the id, look the
plan up, truth-test `plan.subscriptions`, ask for confirmation, then delete
the row. -/
def delete_plan (store : Store) (plan_id : String) (confirm : String) :
    Store × DeletePlanOutcome :=
  match (if pyIsDigitStr plan_id then store.plans.find? (fun p => p.id == strToNat plan_id) else none) with
  | none => (store, .invalidId)
  | some plan =>
      if dynamicRelationshipTruthy (planSubscriptions store plan) then
        (store, .rejectedHasSubs)
      else if pyLower (pyStrip confirm) ≠ "y" then (store, .cancelled)
      else ({ store with plans := store.plans.filter (fun p => p.id != plan.id) }, .deleted)

/-- A sample customer row, used to instantiate universally quantified
theorems at concrete inputs. -/
def sampleCustomer : Customer :=
  { id := 1, router_id := 1234567890, name := "John Doe",
    email := "john@example.com", phone := none, address := "Nairobi" }

/-- A sample plan row, used to instantiate universally quantified theorems at
concrete inputs. -/
def samplePlan : Plan :=
  { id := 1, name := "Basic", description := none, price := 2500, speed := "10 Mbps" }

/-- A sample subscription row, used to instantiate universally quantified
theorems at concrete inputs. -/
def sampleSubscription : Subscription :=
  { id := 1, customer_id := 1, plan_id := 1, router_id := 1234567890,
    status := "active", start_date := ⟨2025, 1, 1⟩,
    end_date := some ⟨2025, 12, 31⟩, last_reminder_sent := none }

/-!  Theorems: general lemmas about the embedded operations, then one theorem
(plus witness or counterexample) per specification claim. -/

theorem monthIndex_addMonths (d : Date) (n : Nat) :
    monthIndex (addMonths d n) = monthIndex d + n := by
  simp only [monthIndex, addMonths]
  omega

theorem addMonths_addMonths (d : Date) (n m : Nat)
    (h : (addMonths d n).day = d.day) :
    addMonths (addMonths d n) m = addMonths d (n + m) := by
  have harg : (d.year * 12 + (d.month - 1) + n) / 12 * 12 +
      ((d.year * 12 + (d.month - 1) + n) % 12 + 1 - 1) + m =
      d.year * 12 + (d.month - 1) + (n + m) := by omega
  simp only [addMonths] at h ⊢
  rw [harg, h]

theorem dateLt_eq_false_of_dateLe (a b : Date) (h : dateLe a b = true) :
    dateLt b a = false := by
  simp only [dateLe, dateLt] at *
  split_ifs at h ⊢ <;> simp_all <;> omega

theorem mem_insertByStart (a s : Subscription) (l : List Subscription) :
    a ∈ insertByStart s l ↔ a = s ∨ a ∈ l := by
  induction l with
  | nil => simp [insertByStart]
  | cons t ts ih =>
      simp only [insertByStart]
      split
      · simp
      · simp [ih]
        tauto

theorem mem_sortByStart (a : Subscription) (l : List Subscription) :
    a ∈ sortByStart l ↔ a ∈ l := by
  induction l with
  | nil => simp [sortByStart]
  | cons s ss ih => simp [sortByStart, mem_insertByStart, ih]

theorem mem_list_subscriptions_active (today : Date) (subs : List Subscription)
    (s : Subscription) :
    s ∈ list_subscriptions today subs "active" ↔
      s ∈ subs ∧ activeQueryFilter today s = true := by
  simp [list_subscriptions, mem_sortByStart, List.mem_filter]

theorem mem_list_subscriptions_expired (today : Date) (subs : List Subscription)
    (s : Subscription) :
    s ∈ list_subscriptions today subs "expired" ↔
      s ∈ subs ∧ expiredQueryFilter today s = true := by
  simp [list_subscriptions, mem_sortByStart, List.mem_filter]

theorem activeQueryFilter_iff (today : Date) (s : Subscription) :
    activeQueryFilter today s = true ↔
      s.status = "active" ∧
        (s.end_date = none ∨ ∃ e, s.end_date = some e ∧ dateLe today e = true) := by
  cases h : s.end_date <;> simp [activeQueryFilter, h]

theorem expiredQueryFilter_iff (today : Date) (s : Subscription) :
    expiredQueryFilter today s = true ↔
      s.status = "active" ∧ ∃ e, s.end_date = some e ∧ dateLt e today = true := by
  cases h : s.end_date <;> simp [expiredQueryFilter, h]

/-- C1 (counterexample): starting 2024-01-31, a 1-month subscription extended
by 1 further month ends on 2024-03-29 (the day was clamped to Feb 29 and the
clamp is not undone), while a 2-month subscription from the same start ends
on 2024-03-31 — the additive law fails. -/
theorem extend_after_create_not_additive :
    (extend_subscription
        (create_subscription sampleCustomer samplePlan ⟨2024, 1, 31⟩ 1) 1).map
        (fun s => s.end_date) = some (some ⟨2024, 3, 29⟩) ∧
    (create_subscription sampleCustomer samplePlan ⟨2024, 1, 31⟩ 2).end_date =
      some ⟨2024, 3, 31⟩ ∧
    (⟨2024, 3, 29⟩ : Date) ≠ ⟨2024, 3, 31⟩ := by
  decide

/-- C1 (amended): extending by M ≥ 1 months a subscription created with
duration N ≥ 1 from start date D equals creating it with duration N + M,
provided the intermediate end date kept D's day of month (no end-of-month
clamping at the intermediate step — in particular whenever D's day is at
most 28). -/
theorem extend_after_create_additive (customer : Customer) (plan : Plan)
    (d : Date) (n m : Nat) (hn : 1 ≤ n) (hm : 1 ≤ m)
    (hday : (addMonths d n).day = d.day) :
    extend_subscription (create_subscription customer plan d n) m =
      some (create_subscription customer plan d (n + m)) := by
  simp only [create_subscription, extend_subscription]
  rw [if_neg (by omega)]
  simp [addMonths_addMonths d n m hday]

/-- C1 (witness): the amended law at D = 2024-01-15, N = 1, M = 2 — the
spec's own concrete scenario, ending 2024-04-15. -/
theorem extend_after_create_additive_witness :
    ((1 : Nat) ≤ 1 ∧ (1 : Nat) ≤ 2 ∧
      (addMonths ⟨2024, 1, 15⟩ 1).day = (⟨2024, 1, 15⟩ : Date).day) ∧
    extend_subscription
        (create_subscription sampleCustomer samplePlan ⟨2024, 1, 15⟩ 1) 2 =
      some (create_subscription sampleCustomer samplePlan ⟨2024, 1, 15⟩ (1 + 2)) :=
  ⟨⟨le_refl 1, by omega, by decide⟩,
    extend_after_create_additive sampleCustomer samplePlan ⟨2024, 1, 15⟩ 1 2
      (le_refl 1) (by omega) (by decide)⟩

/-- C2: for every duration N ≥ 1 and start date D, `create_subscription`
initialises the status to `'active'` and sets an end date whose month index
is exactly N beyond D's and whose day is D's day clamped to the length of the
target month — calendar-month arithmetic, not a fixed day-count offset. -/
theorem create_subscription_calendar_months (customer : Customer) (plan : Plan)
    (d : Date) (n : Nat) (hn : 1 ≤ n) :
    (create_subscription customer plan d n).status = "active" ∧
    ∃ e, (create_subscription customer plan d n).end_date = some e ∧
      monthIndex e = monthIndex d + n ∧
      e.day = min d.day (daysInMonth e.year e.month) := by
  refine ⟨rfl, addMonths d n, rfl, monthIndex_addMonths d n, rfl⟩

/-- C2 (witness): the theorem at D = 2024-01-31, N = 1, together with the
spec's calendar-rule example: the end date is 2024-02-29 (leap-year clamp),
not a fixed 30-day offset. -/
theorem create_subscription_calendar_months_witness :
    ((1 : Nat) ≤ 1 ∧
      ((create_subscription sampleCustomer samplePlan ⟨2024, 1, 31⟩ 1).status = "active" ∧
        ∃ e, (create_subscription sampleCustomer samplePlan ⟨2024, 1, 31⟩ 1).end_date = some e ∧
          monthIndex e = monthIndex ⟨2024, 1, 31⟩ + 1 ∧
          e.day = min (⟨2024, 1, 31⟩ : Date).day (daysInMonth e.year e.month))) ∧
    (create_subscription sampleCustomer samplePlan ⟨2024, 1, 31⟩ 1).end_date =
      some ⟨2024, 2, 29⟩ :=
  ⟨⟨le_refl 1,
      create_subscription_calendar_months sampleCustomer samplePlan ⟨2024, 1, 31⟩ 1 (le_refl 1)⟩,
    by decide⟩

/-- C7: the `active` listing returns exactly the stored subscriptions with
status `'active'` and no end date or an end date ≥ today (in particular never
one whose end date is strictly before today), and the `expired` listing
returns exactly those with status `'active'` and an end date < today. -/
theorem list_subscriptions_filters (today : Date) (subs : List Subscription)
    (s : Subscription) :
    (s ∈ list_subscriptions today subs "active" ↔
      s ∈ subs ∧ s.status = "active" ∧
        (s.end_date = none ∨ ∃ e, s.end_date = some e ∧ dateLe today e = true)) ∧
    (s ∈ list_subscriptions today subs "active" →
      ∀ e, s.end_date = some e → dateLt e today = false) ∧
    (s ∈ list_subscriptions today subs "expired" ↔
      s ∈ subs ∧ s.status = "active" ∧
        ∃ e, s.end_date = some e ∧ dateLt e today = true) := by
  refine ⟨?_, ?_, ?_⟩
  · rw [mem_list_subscriptions_active, activeQueryFilter_iff]
  · intro hs e he
    have h := ((mem_list_subscriptions_active today subs s).mp hs).2
    rw [activeQueryFilter_iff] at h
    rcases h.2 with h2 | ⟨e', he', hle⟩
    · rw [h2] at he; cases he
    · rw [he'] at he; cases he
      exact dateLt_eq_false_of_dateLe today e hle
  · rw [mem_list_subscriptions_expired, expiredQueryFilter_iff]

/-- C7 (witness): the filters at a concrete store — the sample active
subscription (ends 2025-12-31) is listed as `active` on 2025-06-01 and its
end date is not before that day. -/
theorem list_subscriptions_filters_witness :
    sampleSubscription ∈ list_subscriptions ⟨2025, 6, 1⟩ [sampleSubscription] "active" ∧
    dateLt ⟨2025, 12, 31⟩ ⟨2025, 6, 1⟩ = false :=
  ⟨(list_subscriptions_filters ⟨2025, 6, 1⟩ [sampleSubscription] sampleSubscription).1.mpr
      (by decide),
    (list_subscriptions_filters ⟨2025, 6, 1⟩ [sampleSubscription] sampleSubscription).2.1
      ((list_subscriptions_filters ⟨2025, 6, 1⟩ [sampleSubscription] sampleSubscription).1.mpr
        (by decide))
      ⟨2025, 12, 31⟩ (by decide)⟩

/-- C10: the model-level predicate `Subscription.is_active` holds for a
stored subscription exactly when the query-level `active` filter of
`list_subscriptions` returns it on the same day — the two embeddings of
"currently active" agree. -/
theorem is_active_iff_listed_active (today : Date) (subs : List Subscription)
    (s : Subscription) (hs : s ∈ subs) :
    s.is_active today = true ↔ s ∈ list_subscriptions today subs "active" := by
  rw [mem_list_subscriptions_active]
  simp only [Subscription.is_active, activeQueryFilter]
  exact ⟨fun h => ⟨hs, h⟩, fun h => h.2⟩

/-- C10 (witness): the equivalence at the sample subscription on
2025-06-01. -/
theorem is_active_iff_listed_active_witness :
    sampleSubscription.is_active ⟨2025, 6, 1⟩ = true ∧
    sampleSubscription ∈ list_subscriptions ⟨2025, 6, 1⟩ [sampleSubscription] "active" :=
  ⟨by decide,
    (is_active_iff_listed_active ⟨2025, 6, 1⟩ [sampleSubscription] sampleSubscription
      (by decide)).mp (by decide)⟩

/-- C3: evaluated on a store holding one plan and zero subscriptions, with a
valid id and a `'y'` confirmation, `delete_plan` still takes the
"Cannot delete - plan has active subscriptions" branch and leaves the store
unchanged: the guard truth-tests the `lazy="dynamic"` relationship (a query
object that is always truthy) instead of its row count, so deletion of a
subscription-free plan — which `test_data.py` lines 265–267 asserts must
succeed — never happens. -/
theorem delete_plan_rejects_plan_without_subscriptions :
    planSubscriptions ⟨[samplePlan], []⟩ samplePlan = [] ∧
    delete_plan ⟨[samplePlan], []⟩ "1" "y" =
      (⟨[samplePlan], []⟩, DeletePlanOutcome.rejectedHasSubs) := by
  decide

/-- C5 (counterexample): on (name="x", speed="bad", price="500") the soft
plan validator returns a single error — the price-range error — so it does
not simultaneously report a speed-format error as the claim states. -/
theorem validate_plan_data_single_error :
    (validate_plan_data "x" "bad" "500").length = 1 ∧
    "Price must be between KES 2000-100000" ∈ validate_plan_data "x" "bad" "500" ∧
    "Speed description is required" ∉ validate_plan_data "x" "bad" "500" := by
  decide

/-- C5 (amended): on (name="x", speed="bad", price="500") the soft validator
returns exactly the price-range error (its speed check only requires
non-emptiness; the speed-format rejection is the entity-level
`Plan.validate_speed`, which does raise on "bad"); on (name="basic",
speed="10Mbps", price="2500") it returns no errors and the entity-level speed
check passes too. -/
theorem validate_plan_data_behaviour :
    validate_plan_data "x" "bad" "500" = ["Price must be between KES 2000-100000"] ∧
    validate_speed "bad" = none ∧
    validate_plan_data "basic" "10Mbps" "2500" = [] ∧
    validate_speed "10Mbps" = some "10Mbps" := by
  decide

/-- C6 (counterexample): the customer soft validator accepts
(name="John", email="a@b", router_id="1234567890") — an email with no
dot-separated domain — returning an empty error list, while the claim
requires a non-empty one; the dot requirement lives only in the entity-level
`Customer.validate_email`, which does reject this address. -/
theorem validate_customer_data_accepts_dotless_email :
    validate_customer_data "John" "a@b" "1234567890" = [] ∧
    "a@b".data.contains '.' = false ∧
    validate_email "a@b" = none := by
  decide

theorem validate_customer_data_nil_iff (name email rid : String) :
    validate_customer_data name email rid = [] ↔
      name ≠ "" ∧ email ≠ "" ∧ email.data.contains '@' = true ∧
      pyIsDigitStr rid = true ∧ rid.data.length = 10 := by
  simp only [validate_customer_data, List.append_eq_nil]
  split_ifs <;> simp_all <;> aesop

/-- C6 (amended): the customer soft validator returns an empty error list
exactly when the name is non-empty, the email is non-empty and contains
`'@'`, and the router identifier is exactly 10 numeric characters — the
dot-separated-domain requirement is not part of this function. -/
theorem validate_customer_data_empty_iff (name email rid : String) :
    validate_customer_data name email rid = [] ↔
      name ≠ "" ∧ email ≠ "" ∧ email.data.contains '@' = true ∧
      pyIsDigitStr rid = true ∧ rid.data.length = 10 :=
  validate_customer_data_nil_iff name email rid

/-- C6 (witness): the amended equivalence at a concrete valid triple. -/
theorem validate_customer_data_empty_iff_witness :
    validate_customer_data "John Doe" "john@example.com" "1234567890" = [] :=
  (validate_customer_data_empty_iff "John Doe" "john@example.com" "1234567890").mpr
    (by decide)

theorem expiringFilter_iff (today : Date) (s : Subscription) :
    expiringFilter today s = true ↔
      s.status = "active" ∧
        (∃ e, s.end_date = some e ∧ dateLe today e = true ∧
          dateLe e (addDays today 7) = true) ∧
        (s.last_reminder_sent = none ∨
          ∃ r, s.last_reminder_sent = some r ∧ dateLt r today = true) := by
  cases he : s.end_date <;> cases hr : s.last_reminder_sent <;>
    simp [expiringFilter, reminderDue, he, hr, and_assoc]

/-- C8: the expiring sweep's filter selects exactly the subscriptions with
status `'active'`, an end date within [today, today + 7 days] inclusive, and
a last-reminder timestamp that is absent or strictly before today; each
selected subscription whose customer has an email on file gets
`last_reminder_sent` set to today and keeps every other field, and every
other subscription is returned unchanged. -/
theorem check_expiring_sweep (today : Date) (customers : List Customer)
    (subs : List Subscription) :
    (∀ s : Subscription, expiringFilter today s = true ↔
        s.status = "active" ∧
          (∃ e, s.end_date = some e ∧ dateLe today e = true ∧
            dateLe e (addDays today 7) = true) ∧
          (s.last_reminder_sent = none ∨
            ∃ r, s.last_reminder_sent = some r ∧ dateLt r today = true)) ∧
    (check_expiring_subscriptions today customers subs).length = subs.length ∧
    (∀ (i : Nat) (hi : i < subs.length),
      (∀ c, findCustomer customers (subs[i]).customer_id = some c → c.email ≠ "" →
          expiringFilter today (subs[i]) = true →
          (check_expiring_subscriptions today customers subs)[i]? =
            some { subs[i] with last_reminder_sent := some today }) ∧
      ((∀ c, findCustomer customers (subs[i]).customer_id = some c →
          c.email = "" ∨ expiringFilter today (subs[i]) = false) →
        (check_expiring_subscriptions today customers subs)[i]? = some (subs[i]))) := by
  refine ⟨expiringFilter_iff today, by simp [check_expiring_subscriptions], ?_⟩
  intro i hi
  have hget : (check_expiring_subscriptions today customers subs)[i]? =
      some (match findCustomer customers (subs[i]).customer_id with
            | none => subs[i]
            | some c =>
                if expiringFilter today (subs[i]) && c.email != "" then
                  { subs[i] with last_reminder_sent := some today }
                else subs[i]) := by
    simp [check_expiring_subscriptions, List.getElem?_eq_getElem hi]
  constructor
  · intro c hc hemail hfilter
    rw [hget, hc]
    simp [hfilter, bne_iff_ne, hemail]
  · intro hno
    rw [hget]
    cases hc : findCustomer customers (subs[i]).customer_id with
    | none => rfl
    | some c =>
        rcases hno c hc with h | h
        · simp [h]
        · simp [h]

/-- C8 (witness): the sweep at a concrete store — one active subscription
ending 2025-06-05, customer with an email on file, today 2025-06-01 — gets
its reminder timestamp set to today. -/
theorem check_expiring_sweep_witness :
    (check_expiring_subscriptions ⟨2025, 6, 1⟩ [sampleCustomer]
        [{ sampleSubscription with end_date := some ⟨2025, 6, 5⟩ }])[0]? =
      some { sampleSubscription with
             end_date := some ⟨2025, 6, 5⟩,
             last_reminder_sent := some ⟨2025, 6, 1⟩ } :=
  ((check_expiring_sweep ⟨2025, 6, 1⟩ [sampleCustomer]
      [{ sampleSubscription with end_date := some ⟨2025, 6, 5⟩ }]).2.2 0
      (by decide)).1 sampleCustomer (by decide) (by decide) (by decide)

/-- C4 (counterexample): "0812345678" is a 10-character all-digit string
starting with '0', yet phone normalization rejects it (the rewritten form
"+254812345678" fails the `+2547...` pattern); and "+254712345678" is not of
that shape, yet normalization accepts it — both halves of the claim fail. -/
theorem validate_phone_shape_counterexample :
    validate_phone "0812345678" = none ∧
    validate_phone "+254712345678" = some (some "+254712345678") := by
  decide

/-- C4 (amended): a 10-character all-digit input starting with '0' is
accepted — with a result starting with the fixed prefix "+254" and canonical
total length 13 — exactly when its second character is '7' and its third is
in the class `[0-247-9]`; all other such leading-zero inputs are rejected.
(Inputs of other shapes are accepted exactly when their cleaned form already
matches the full regional pattern.) -/
theorem validate_phone_leading_zero (s : String)
    (h10 : s.data.length = 10) (hd : s.data.all Char.isDigit = true)
    (h0 : s.data.head? = some '0') (c1 c2 : Char)
    (hc1 : s.data[1]? = some c1) (hc2 : s.data[2]? = some c2) :
    (c1 = '7' ∧ allowedSecondDigit c2 = true →
      ∃ t, validate_phone s = some (some t) ∧
        t.data.take 4 = ['+', '2', '5', '4'] ∧ t.data.length = 13) ∧
    (¬(c1 = '7' ∧ allowedSecondDigit c2 = true) → validate_phone s = none) := by
  rcases hsd : s.data with _ | ⟨a, _ | ⟨b, _ | ⟨c, r⟩⟩⟩ <;> rw [hsd] at h10 <;>
    simp at h10
  rw [hsd] at hd h0 hc1 hc2
  simp at h0 hc1 hc2
  subst h0
  rw [← hc1, ← hc2] at *
  have hr : r.length = 7 := by omega
  have hne : s ≠ "" := by
    intro h
    rw [h] at hsd
    simp at hsd
  have hdr : r.all Char.isDigit = true := by
    simp only [List.all_cons, Bool.and_eq_true] at hd
    exact hd.2.2.2
  have hclean : cleanPhone s = s.data := by
    unfold cleanPhone
    apply List.filter_eq_self.mpr
    intro x hx
    rw [hsd] at hx
    have := List.all_eq_true.mp hd x hx
    simp [this]
  have hrw : rewriteLeadingZero (cleanPhone s) = '+' :: '2' :: '5' :: '4' :: b :: c :: r := by
    rw [hclean, hsd]
    simp [rewriteLeadingZero, hr]
  have hken : kenyanPhoneOk ('+' :: '2' :: '5' :: '4' :: b :: c :: r) =
      ((b == '7') && allowedSecondDigit c) := by
    simp [kenyanPhoneOk, hr, hdr]
  constructor
  · rintro ⟨h7, hall⟩
    refine ⟨⟨'+' :: '2' :: '5' :: '4' :: b :: c :: r⟩, ?_, by simp, by simp [hr]⟩
    unfold validate_phone
    rw [if_neg hne, hrw, if_pos]
    rw [hken, h7]
    simp [hall]
  · intro hnot
    unfold validate_phone
    rw [if_neg hne, hrw, if_neg]
    rw [hken]
    simp only [Bool.and_eq_true, beq_iff_eq]
    exact fun h => hnot ⟨h.1, h.2⟩

/-- C4 (witness): the amended statement at "0712345678", which normalizes to
"+254712345678". -/
theorem validate_phone_leading_zero_witness :
    (("0712345678" : String).data.length = 10 ∧
      ("0712345678" : String).data.all Char.isDigit = true ∧
      ("0712345678" : String).data.head? = some '0') ∧
    ∃ t, validate_phone "0712345678" = some (some t) ∧
      t.data.take 4 = ['+', '2', '5', '4'] ∧ t.data.length = 13 :=
  ⟨⟨by decide, by decide, by decide⟩,
    (validate_phone_leading_zero "0712345678" (by decide) (by decide) (by decide)
      '7' '1' (by decide) (by decide)).1 ⟨rfl, by decide⟩⟩

theorem digitChar_charVal {c : Char} (h : c.isDigit = true) :
    Nat.digitChar (charVal c) = c := by
  simp [Char.isDigit] at h
  obtain ⟨h1, h2⟩ := h
  have h1' : 48 ≤ c.toNat := h1
  have h2' : c.toNat ≤ 57 := h2
  have hinj : ∀ x : Char, x.toNat = c.toNat → x = c := fun x hx =>
    Char.eq_of_val_eq (UInt32.ext hx)
  have key : ∀ n : Nat, 48 ≤ n → n ≤ 57 → (Nat.digitChar (n - 48)).toNat = n := by
    intro n hl hu
    interval_cases n <;> rfl
  exact hinj _ (key c.toNat h1' h2')

theorem charVal_lt_ten {c : Char} (h : c.isDigit = true) : charVal c < 10 := by
  simp [Char.isDigit] at h
  have h2' : c.toNat ≤ 57 := h.2
  simp only [charVal]
  omega

theorem charVal_ne_zero {c : Char} (h : c.isDigit = true) (hne : c ≠ '0') :
    charVal c ≠ 0 := by
  simp [Char.isDigit] at h
  have h1' : 48 ≤ c.toNat := h.1
  intro hz
  apply hne
  apply Char.eq_of_val_eq
  apply UInt32.ext
  show c.toNat = 48
  simp only [charVal] at hz
  omega

theorem foldl_digits_eq_ofDigits (l : List Char) (a : Nat) :
    l.foldl (fun acc c => 10 * acc + charVal c) a =
      Nat.ofDigits 10 ((l.map charVal).reverse) + a * 10 ^ l.length := by
  induction l generalizing a with
  | nil => simp [Nat.ofDigits]
  | cons c l ih =>
      simp only [List.foldl_cons, List.map_cons, List.reverse_cons, List.length_cons]
      rw [ih, Nat.ofDigits_append]
      simp [Nat.ofDigits]
      ring

theorem natToText_strToNat (s : String) (hd : pyIsDigitStr s = true)
    (h0 : s.data.head? ≠ some '0') : natToText (strToNat s) = s := by
  have hne : s.data ≠ [] := by
    simp [pyIsDigitStr] at hd
    intro h
    rw [h] at hd
    simp at hd
  have hall : s.data.all Char.isDigit = true := by
    simp only [pyIsDigitStr, Bool.and_eq_true] at hd
    exact hd.2
  have hfold : strToNat s = Nat.ofDigits 10 ((s.data.map charVal).reverse) := by
    have := foldl_digits_eq_ofDigits s.data 0
    simpa [strToNat] using this
  rcases hhead : s.data with _ | ⟨a, rest⟩
  · exact absurd hhead hne
  have ha : a.isDigit = true :=
    List.all_eq_true.mp hall a (by rw [hhead]; exact List.mem_cons_self _ _)
  have hane : a ≠ '0' := by
    intro h
    apply h0
    rw [hhead, h]
    rfl
  have hlast : ((s.data.map charVal).reverse).getLast? = some (charVal a) := by
    rw [List.getLast?_reverse, List.head?_map, hhead]
    rfl
  have hdigits : Nat.digits 10 (strToNat s) = (s.data.map charVal).reverse := by
    rw [hfold]
    apply Nat.digits_ofDigits 10 (by norm_num)
    · intro x hx
      rw [List.mem_reverse, List.mem_map] at hx
      obtain ⟨cx, hcx, rfl⟩ := hx
      exact charVal_lt_ten (List.all_eq_true.mp hall cx hcx)
    · intro hne2
      rw [List.getLast?_eq_getLast _ hne2] at hlast
      rw [Option.some_inj.mp hlast]
      exact charVal_ne_zero ha hane
  have hzero : strToNat s ≠ 0 := by
    intro h
    rw [h] at hdigits
    rw [hhead] at hdigits
    simp at hdigits
  rw [natToText, if_neg hzero, hdigits, List.reverse_reverse]
  have hmapmap : (s.data.map charVal).map Nat.digitChar = s.data := by
    rw [List.map_map]
    conv_rhs => rw [← List.map_id s.data]
    apply List.map_congr_left
    intro x hx
    exact digitChar_charVal (List.all_eq_true.mp hall x hx)
  rw [hmapmap]

/-- C9 (counterexample): the validator accepts the 10-digit router id
"0123456789", but `create_customer` stores `int("0123456789") = 123456789`
and reading the stored integer back as text gives "123456789" — a 9-character
string, not the string that was entered. -/
theorem create_customer_router_leading_zero_lost :
    create_customer "John" "j@d.com" "" "addr" "0123456789" =
      some { id := 0, router_id := 123456789, name := "John", email := "j@d.com",
             phone := none, address := "addr" } ∧
    natToText 123456789 = "123456789" ∧
    ("123456789" : String) ≠ "0123456789" := by
  refine ⟨by decide, ?_, by decide⟩
  have h := natToText_strToNat "123456789" (by decide) (by decide)
  have hs : strToNat "123456789" = 123456789 := by decide
  rw [hs] at h
  exact h

/-- C9 (amended): for every accepted router identifier that does not start
with '0', the stored integer rendered back as text is the entered string
(the round trip fails exactly on the leading-zero identifiers the validator
also accepts, since the column stores `int(router_id)`). -/
theorem create_customer_router_roundtrip (name email phone address rid : String)
    (c : Customer) (hc : create_customer name email phone address rid = some c)
    (h0 : rid.data.head? ≠ some '0') :
    natToText c.router_id = rid := by
  unfold create_customer at hc
  split at hc
  · cases hc
  next hv =>
    have hveq : validate_customer_data name email rid = [] := not_not.mp hv
    have hrid : pyIsDigitStr rid = true :=
      ((validate_customer_data_nil_iff name email rid).mp hveq).2.2.2.1
    rcases hve : validate_email email with _ | e <;> rw [hve] at hc <;>
      rcases hvp : validate_phone phone with _ | p <;> rw [hvp] at hc <;>
        simp at hc
    rw [← hc]
    exact natToText_strToNat rid hrid h0

/-- C9 (witness): the round trip at the router id "1234567890". -/
theorem create_customer_router_roundtrip_witness :
    create_customer "John Doe" "john@example.com" "" "Nairobi" "1234567890" =
      some { id := 0, router_id := 1234567890, name := "John Doe",
             email := "john@example.com", phone := none, address := "Nairobi" } ∧
    natToText 1234567890 = "1234567890" :=
  ⟨by decide,
    create_customer_router_roundtrip "John Doe" "john@example.com" "" "Nairobi"
      "1234567890"
      { id := 0, router_id := 1234567890, name := "John Doe",
        email := "john@example.com", phone := none, address := "Nairobi" }
      (by decide) (by decide)⟩
